import Mathlib

/-!
Shallow embedding of the Mind-Flow validation and scoring core.

Sources:
* `src/my-app/src/App.jsx` — namespace `App` below: the ordinal vibe scale
  `VIBE_ORDER`, `validateVibeCheckIn`, `validateVibeTimestamps`,
  `validateHealthScore` and `computeHealthScore` (rounding to 2 decimals).
* `src/MindflowApp.jsx` — namespace `UI` below: `VIBE_SCALE`,
  `ENGAGEMENT_TIERS`, the short-circuiting `validateCheckIn`, and
  `computeHealthScore` (rounding to 1 decimal) with its inline tier lookup,
  modelled as `tierForScore`.

Modelling conventions: JS numbers are rationals (`ℚ`); `Number.isInteger q`
is `q.den = 1`; error message strings are inductive error kinds carrying the
values interpolated into the message; `Date` timestamps are their
`getTime()` values (`ℤ` milliseconds); object/array lookups are first-match
searches over the entry lists (all keys are pairwise distinct).
-/

namespace App

/-- One entry of the canonical ordinal vibe scale (`VIBE_ORDER`). -/
structure VibeLevel where
  label : String
  emoji : String
  value : ℚ
deriving DecidableEq

/-- The canonical empirical ordering of moods (`VIBE_ORDER` in App.jsx). -/
def VIBE_ORDER : List VibeLevel :=
  [⟨"Terrible", "😢", 1⟩,
   ⟨"Down", "😞", 2⟩,
   ⟨"Neutral", "😐", 3⟩,
   ⟨"Good", "🙂", 4⟩,
   ⟨"Great", "😄", 5⟩]

/-- `VIBE_BY_LABEL[label]`: the lookup map built by `Object.fromEntries`,
modelled as a first-match search (labels are pairwise distinct). -/
def VIBE_BY_LABEL (label : String) : Option VibeLevel :=
  VIBE_ORDER.find? (fun v => v.label == label)

/-- `Number.isInteger` on a rational: the denominator is 1. -/
def isInteger (q : ℚ) : Prop := q.den = 1

instance (q : ℚ) : Decidable (isInteger q) := by unfold isInteger; infer_instance

/-- The error kinds produced by `validateVibeCheckIn`, each carrying the data
interpolated into the corresponding message string in App.jsx. -/
inductive VibeError
  | ordinalViolation (moodValue : ℚ)
  | nominalViolation (moodLabel : String)
  | homomorphismViolation (moodLabel : String) (canonical given : ℚ)
  | empiricalOrderViolation (sad happy : ℚ)
deriving DecidableEq

/-- The `{ valid, errors }` result shape shared by all App.jsx validators;
`valid` is `errors.length === 0`. -/
structure Validation (ε : Type) where
  valid : Bool
  errors : List ε
deriving DecidableEq

/-- Rule (a) of `validateVibeCheckIn`: the ordinal range check. -/
def rangeErrors (moodValue : ℚ) : List VibeError :=
  if ¬ isInteger moodValue ∨ moodValue < 1 ∨ moodValue > 5 then
    [VibeError.ordinalViolation moodValue]
  else []

/-- Rule (b) of `validateVibeCheckIn`: label recognition and the
label-to-value homomorphism. -/
def labelErrors (moodValue : ℚ) (moodLabel : String) : List VibeError :=
  match VIBE_BY_LABEL moodLabel with
  | none => [VibeError.nominalViolation moodLabel]
  | some canonicalEntry =>
      if canonicalEntry.value ≠ moodValue then
        [VibeError.homomorphismViolation moodLabel canonicalEntry.value moodValue]
      else []

/-- Rule (c) of `validateVibeCheckIn`: the registry self-check that
"Terrible" is strictly below "Great". The source reads the two entries
directly off the lookup map (both are present; the `getD 0` default is
never taken). -/
def orderErrors : List VibeError :=
  let sadValue := ((VIBE_BY_LABEL ("Terrible")).map VibeLevel.value).getD 0
  let happyValue := ((VIBE_BY_LABEL ("Great")).map VibeLevel.value).getD 0
  if sadValue ≥ happyValue then
    [VibeError.empiricalOrderViolation sadValue happyValue]
  else []

/-- `validateVibeCheckIn({ moodValue, moodLabel })` from App.jsx: the three
rule groups push their errors into one list, in source order. -/
def validateVibeCheckIn (moodValue : ℚ) (moodLabel : String) : Validation VibeError :=
  let errors := rangeErrors moodValue ++ labelErrors moodValue moodLabel ++ orderErrors
  ⟨errors.isEmpty, errors⟩

/-- The duplicate-timestamp error of `validateVibeTimestamps`, carrying the
offending index and the timestamp printed in the message. -/
inductive TimestampError
  | duplicateTimestamp (index : ℕ) (recordedAt : ℤ)
deriving DecidableEq

/-- The index carried by a `TimestampError`. -/
def TimestampError.index : TimestampError → ℕ
  | TimestampError.duplicateTimestamp i _ => i

/-- `validateVibeTimestamps(checkIns)` from App.jsx: the loop
`for (let i = 1; i < n; i++)` pushes one error for each index `i ≥ 1` whose
timestamp equals its predecessor's. A check-in is modelled by its
`recordedAt.getTime()` value. -/
def validateVibeTimestamps (checkIns : List ℤ) : Validation TimestampError :=
  let errors := ((List.range checkIns.length).filter
      (fun i => decide (1 ≤ i) && (checkIns.getD i 0 == checkIns.getD (i - 1) 0))).map
      (fun i => TimestampError.duplicateTimestamp i (checkIns.getD i 0))
  ⟨errors.isEmpty, errors⟩

/-- The error kinds produced by `validateHealthScore`. -/
inductive HealthError
  | intervalViolation (healthScore : ℚ)
  | unknownTier (engagementTier : String)
  | tierScoreMismatch (engagementTier : String) (lo hi healthScore : ℚ)
  | nonNegativeIntegerViolation (field : String) (value : ℚ)
  | ordinalBoundsViolation (averageVibeScore : ℚ)
deriving DecidableEq

/-- The record handed to `validateHealthScore`. -/
structure HealthScoreRecord where
  streakDays : ℚ
  vibeCheckIns : ℚ
  averageVibeScore : ℚ
  loginCount : ℚ
  healthScore : ℚ
  engagementTier : String
deriving DecidableEq

/-- The `tierBounds` object literal inside `validateHealthScore`. -/
def tierBounds (engagementTier : String) : Option (ℚ × ℚ) :=
  if engagementTier = "Low" then some (0, 25)
  else if engagementTier = "Moderate" then some (26, 50)
  else if engagementTier = "High" then some (51, 75)
  else if engagementTier = "Excellent" then some (76, 100)
  else none

/-- `validateHealthScore(record)` from App.jsx. The `typeof x !== 'number'`
guards always pass in this model (every `ℚ` is a number). -/
def validateHealthScore (record : HealthScoreRecord) : Validation HealthError :=
  let scoreErrors :=
    if record.healthScore < 0 ∨ record.healthScore > 100 then
      [HealthError.intervalViolation record.healthScore]
    else []
  let tierErrors :=
    match tierBounds record.engagementTier with
    | none => [HealthError.unknownTier record.engagementTier]
    | some (lo, hi) =>
        if record.healthScore < lo ∨ record.healthScore > hi then
          [HealthError.tierScoreMismatch record.engagementTier lo hi record.healthScore]
        else []
  let fieldErrors :=
    (if ¬ isInteger record.streakDays ∨ record.streakDays < 0 then
      [HealthError.nonNegativeIntegerViolation ("streakDays") record.streakDays]
    else []) ++
    (if ¬ isInteger record.vibeCheckIns ∨ record.vibeCheckIns < 0 then
      [HealthError.nonNegativeIntegerViolation ("vibeCheckIns") record.vibeCheckIns]
    else []) ++
    (if ¬ isInteger record.loginCount ∨ record.loginCount < 0 then
      [HealthError.nonNegativeIntegerViolation ("loginCount") record.loginCount]
    else [])
  let vibeErrors :=
    if record.averageVibeScore < 1 ∨ record.averageVibeScore > 5 then
      [HealthError.ordinalBoundsViolation record.averageVibeScore]
    else []
  let errors := scoreErrors ++ tierErrors ++ fieldErrors ++ vibeErrors
  ⟨errors.isEmpty, errors⟩

/-- The `maxValues` normalisation-ceiling parameter of `computeHealthScore`. -/
structure MaxValues where
  streakDays : ℚ
  vibeCheckIns : ℚ
  loginCount : ℚ
deriving DecidableEq

/-- The default `maxValues = { streakDays: 30, vibeCheckIns: 30, loginCount: 60 }`. -/
def defaultMaxValues : MaxValues := ⟨30, 30, 60⟩

/-- `+x.toFixed(2)`: round to 2 decimal places. ECMAScript `toFixed` breaks
ties towards the larger candidate, which on the non-negative scores of this
program coincides with Lean's `round` (half up). -/
def toFixed2 (q : ℚ) : ℚ := (round (q * 100) : ℚ) / 100

/-- The `breakdown` object returned by `computeHealthScore`. -/
structure Breakdown where
  normStreak : ℚ
  normVibe : ℚ
  normLogins : ℚ
  normCheckins : ℚ
deriving DecidableEq

/-- The result of `computeHealthScore`. -/
structure HealthScoreResult where
  healthScore : ℚ
  engagementTier : String
  breakdown : Breakdown
deriving DecidableEq

/-- `computeHealthScore({...})` from App.jsx: normalise each direct measure
to [0,100], take the 0.40/0.35/0.15/0.10 weighted sum rounded to 2
decimals, and derive the tier by the `>= 76 / >= 51 / >= 26` cascade. -/
def computeHealthScore (streakDays vibeCheckIns averageVibeScore loginCount : ℚ)
    (maxValues : MaxValues) : HealthScoreResult :=
  let normStreak := min (streakDays / maxValues.streakDays) 1 * 100
  let normCheckins := min (vibeCheckIns / maxValues.vibeCheckIns) 1 * 100
  let normVibe := (averageVibeScore - 1) / 4 * 100
  let normLogins := min (loginCount / maxValues.loginCount) 1 * 100
  let healthScore := toFixed2
    (normStreak * 0.40 + normVibe * 0.35 + normLogins * 0.15 + normCheckins * 0.10)
  let engagementTier :=
    if healthScore ≥ 76 then "Excellent"
    else if healthScore ≥ 51 then "High"
    else if healthScore ≥ 26 then "Moderate"
    else "Low"
  ⟨healthScore, engagementTier,
   ⟨toFixed2 normStreak, toFixed2 normVibe, toFixed2 normLogins, toFixed2 normCheckins⟩⟩

/-- The `HealthScoreRecord` assembled from `computeHealthScore`'s returned
`healthScore` and `engagementTier` together with its four inputs (default
ceilings), as fed back into `validateHealthScore`. -/
def roundTripRecord (streakDays vibeCheckIns averageVibeScore loginCount : ℚ) :
    HealthScoreRecord :=
  let result := computeHealthScore streakDays vibeCheckIns averageVibeScore loginCount
    defaultMaxValues
  ⟨streakDays, vibeCheckIns, averageVibeScore, loginCount,
   result.healthScore, result.engagementTier⟩

end App

namespace UI

/-- One entry of `VIBE_SCALE` in MindflowApp.jsx. -/
structure ScaleEntry where
  value : ℚ
  label : String
  emoji : String
  color : String
deriving DecidableEq

/-- `VIBE_SCALE` from MindflowApp.jsx. -/
def VIBE_SCALE : List ScaleEntry :=
  [⟨1, "Terrible", "😢", "#ff6b8a"⟩,
   ⟨2, "Down", "😞", "#ff9a6c"⟩,
   ⟨3, "Neutral", "😐", "#ffd166"⟩,
   ⟨4, "Good", "🙂", "#a8d8a8"⟩,
   ⟨5, "Great", "😄", "#5ec4b1"⟩]

/-- One entry of `ENGAGEMENT_TIERS` in MindflowApp.jsx. -/
structure Tier where
  label : String
  min : ℤ
  max : ℤ
  color : String
deriving DecidableEq

/-- `ENGAGEMENT_TIERS` from MindflowApp.jsx. -/
def ENGAGEMENT_TIERS : List Tier :=
  [⟨"Low", 0, 25, "#ff6b8a"⟩,
   ⟨"Moderate", 26, 50, "#ffd166"⟩,
   ⟨"High", 51, 75, "#a8d8a8"⟩,
   ⟨"Excellent", 76, 100, "#5ec4b1"⟩]

/-- The error carried in the `error` field of the UI `validateCheckIn`
result, one kind per message string. -/
inductive CheckInError
  | unknownLabel (moodLabel : String)
  | homomorphismViolation (moodLabel : String) (canonical given : ℚ)
  | outOfRange (moodValue : ℚ)
deriving DecidableEq

/-- The `{ valid, error }` result of the UI `validateCheckIn`. -/
structure CheckInResult where
  valid : Bool
  error : Option CheckInError
deriving DecidableEq

/-- `validateCheckIn({ moodValue, moodLabel })` from MindflowApp.jsx: a
sequence of early returns — unknown label first, then the homomorphism
check, then the range check. -/
def validateCheckIn (moodValue : ℚ) (moodLabel : String) : CheckInResult :=
  match VIBE_SCALE.find? (fun v => v.label == moodLabel) with
  | none => ⟨false, some (CheckInError.unknownLabel moodLabel)⟩
  | some canonical =>
      if canonical.value ≠ moodValue then
        ⟨false, some (CheckInError.homomorphismViolation moodLabel canonical.value moodValue)⟩
      else if moodValue < 1 ∨ moodValue > 5 then
        ⟨false, some (CheckInError.outOfRange moodValue)⟩
      else ⟨true, none⟩

/-- The inline tier lookup of the UI `computeHealthScore`:
`ENGAGEMENT_TIERS.find(t => score >= t.min && score <= t.max) || ENGAGEMENT_TIERS[0]`
(the `||` fallback yields the first tier, Low). -/
def tierForScore (score : ℚ) : Tier :=
  (ENGAGEMENT_TIERS.find?
      (fun t => decide ((t.min : ℚ) ≤ score) && decide (score ≤ (t.max : ℚ)))).getD
    ⟨"Low", 0, 25, "#ff6b8a"⟩

/-- `+x.toFixed(1)`: round to 1 decimal place, ties towards the larger
candidate (half up on the non-negative scores of this program). -/
def toFixed1 (q : ℚ) : ℚ := (round (q * 10) : ℚ) / 10

/-- The result of the UI `computeHealthScore`. -/
structure ScoreResult where
  score : ℚ
  tier : String
  tierColor : String
deriving DecidableEq

/-- `computeHealthScore({...})` from MindflowApp.jsx: fixed ceilings
30/60/30, weights 0.40/0.35/0.15/0.10, rounding to 1 decimal, tier by
`tierForScore`. -/
def computeHealthScore (streakDays vibeCheckIns avgVibeScore loginCount : ℚ) : ScoreResult :=
  let normStreak := min (streakDays / 30) 1 * 100
  let normVibe := (avgVibeScore - 1) / 4 * 100
  let normLogins := min (loginCount / 60) 1 * 100
  let normCheckins := min (vibeCheckIns / 30) 1 * 100
  let score := toFixed1
    (normStreak * 0.40 + normVibe * 0.35 + normLogins * 0.15 + normCheckins * 0.10)
  let tier := tierForScore score
  ⟨score, tier.label, tier.color⟩

end UI

/-! ### Shared helper lemmas -/

theorem round_le_round_of_le {x y : ℚ} (h : x ≤ y) : round x ≤ round y := by
  rw [round_eq, round_eq]
  exact Int.floor_le_floor (by linarith)

theorem toFixed2_le_toFixed2 {x y : ℚ} (h : x ≤ y) : App.toFixed2 x ≤ App.toFixed2 y := by
  unfold App.toFixed2
  have hr : round (x * 100) ≤ round (y * 100) := round_le_round_of_le (by linarith)
  have : ((round (x * 100) : ℤ) : ℚ) ≤ ((round (y * 100) : ℤ) : ℚ) := by exact_mod_cast hr
  linarith

theorem toFixed2_nonneg {x : ℚ} (h : 0 ≤ x) : 0 ≤ App.toFixed2 x := by
  unfold App.toFixed2
  have h0 : round (0 : ℚ) ≤ round (x * 100) := round_le_round_of_le (by linarith)
  rw [round_zero] at h0
  have : (0 : ℚ) ≤ ((round (x * 100) : ℤ) : ℚ) := by exact_mod_cast h0
  linarith

theorem toFixed2_le_100 {x : ℚ} (h : x ≤ 100) : App.toFixed2 x ≤ 100 := by
  unfold App.toFixed2
  have h1 : round (x * 100) ≤ round ((10000 : ℤ) : ℚ) := round_le_round_of_le (by push_cast; linarith)
  rw [round_intCast] at h1
  have : ((round (x * 100) : ℤ) : ℚ) ≤ ((10000 : ℤ) : ℚ) := by exact_mod_cast h1
  push_cast at this
  linarith

theorem norm_component_bounds {x c : ℚ} (hx : 0 ≤ x) (hc : 0 < c) :
    0 ≤ min (x / c) 1 * 100 ∧ min (x / c) 1 * 100 ≤ 100 := by
  constructor
  · have : (0 : ℚ) ≤ min (x / c) 1 := le_min (div_nonneg hx hc.le) zero_le_one
    linarith
  · have : min (x / c) 1 ≤ 1 := min_le_right _ _
    linarith

theorem computeHealthScore_healthScore_eq (s v a l : ℚ) (m : App.MaxValues) :
    (App.computeHealthScore s v a l m).healthScore =
      App.toFixed2 (min (s / m.streakDays) 1 * 100 * 0.40 + (a - 1) / 4 * 100 * 0.35 +
        min (l / m.loginCount) 1 * 100 * 0.15 + min (v / m.vibeCheckIns) 1 * 100 * 0.10) := rfl

theorem computeHealthScore_engagementTier_eq (s v a l : ℚ) (m : App.MaxValues) :
    (App.computeHealthScore s v a l m).engagementTier =
      (if (App.computeHealthScore s v a l m).healthScore ≥ 76 then "Excellent"
       else if (App.computeHealthScore s v a l m).healthScore ≥ 51 then "High"
       else if (App.computeHealthScore s v a l m).healthScore ≥ 26 then "Moderate"
       else "Low") := rfl

theorem computeHealthScore_bounds {s v a l : ℚ} (hs : 0 ≤ s) (hv : 0 ≤ v) (hl : 0 ≤ l)
    (ha1 : 1 ≤ a) (ha5 : a ≤ 5) :
    0 ≤ (App.computeHealthScore s v a l App.defaultMaxValues).healthScore ∧
      (App.computeHealthScore s v a l App.defaultMaxValues).healthScore ≤ 100 := by
  rw [computeHealthScore_healthScore_eq]
  have h1 := norm_component_bounds (c := (App.defaultMaxValues).streakDays) hs (by norm_num [App.defaultMaxValues])
  have h2 := norm_component_bounds (c := (App.defaultMaxValues).vibeCheckIns) hv (by norm_num [App.defaultMaxValues])
  have h3 := norm_component_bounds (c := (App.defaultMaxValues).loginCount) hl (by norm_num [App.defaultMaxValues])
  have h4 : 0 ≤ (a - 1) / 4 * 100 ∧ (a - 1) / 4 * 100 ≤ 100 := by constructor <;> linarith
  constructor
  · exact toFixed2_nonneg (by nlinarith [h1.1, h2.1, h3.1, h4.1])
  · exact toFixed2_le_100 (by nlinarith [h1.2, h2.2, h3.2, h4.2])

/-! ### Claim theorems -/

theorem mem_rangeErrors_iff (moodValue : ℚ) (e : App.VibeError) :
    e ∈ App.rangeErrors moodValue ↔
      (¬ App.isInteger moodValue ∨ moodValue < 1 ∨ moodValue > 5) ∧
        e = App.VibeError.ordinalViolation moodValue := by
  unfold App.rangeErrors
  split
  · rename_i h; simp [h]
  · rename_i h; simp [h]

theorem mem_labelErrors_iff (moodValue : ℚ) (moodLabel : String) (e : App.VibeError) :
    e ∈ App.labelErrors moodValue moodLabel ↔
      (App.VIBE_BY_LABEL moodLabel = none ∧ e = App.VibeError.nominalViolation moodLabel) ∨
      (∃ entry, App.VIBE_BY_LABEL moodLabel = some entry ∧ entry.value ≠ moodValue ∧
        e = App.VibeError.homomorphismViolation moodLabel entry.value moodValue) := by
  unfold App.labelErrors
  cases hby : App.VIBE_BY_LABEL moodLabel with
  | none => simp
  | some canonicalEntry =>
      simp only []
      split
      · rename_i h; simp [h]
      · rename_i h; simp [h]

theorem validateVibeCheckIn_errors_eq (moodValue : ℚ) (moodLabel : String) :
    (App.validateVibeCheckIn moodValue moodLabel).errors =
      App.rangeErrors moodValue ++ App.labelErrors moodValue moodLabel := by
  have ho : App.orderErrors = [] := by decide
  show App.rangeErrors moodValue ++ App.labelErrors moodValue moodLabel ++ App.orderErrors = _
  rw [ho, List.append_nil]

/-- C2: the spec's check-in validator (`validateVibeCheckIn` in App.jsx)
does not short-circuit: the range rule and the label/homomorphism rules are
evaluated independently, every violated rule contributes its error to the
one returned list, and `valid` is true exactly when that list is empty. -/
theorem claim_C2_no_short_circuit (moodValue : ℚ) (moodLabel : String) :
    ((App.validateVibeCheckIn moodValue moodLabel).valid = true ↔
      (App.validateVibeCheckIn moodValue moodLabel).errors = []) ∧
    (App.VibeError.ordinalViolation moodValue ∈
        (App.validateVibeCheckIn moodValue moodLabel).errors ↔
      (¬ App.isInteger moodValue ∨ moodValue < 1 ∨ moodValue > 5)) ∧
    (App.VibeError.nominalViolation moodLabel ∈
        (App.validateVibeCheckIn moodValue moodLabel).errors ↔
      App.VIBE_BY_LABEL moodLabel = none) ∧
    (∀ canonical : ℚ,
      App.VibeError.homomorphismViolation moodLabel canonical moodValue ∈
          (App.validateVibeCheckIn moodValue moodLabel).errors ↔
        ∃ entry, App.VIBE_BY_LABEL moodLabel = some entry ∧
          entry.value = canonical ∧ canonical ≠ moodValue) := by
  have hvalid : (App.validateVibeCheckIn moodValue moodLabel).valid =
      (App.validateVibeCheckIn moodValue moodLabel).errors.isEmpty := rfl
  refine ⟨?_, ?_, ?_, ?_⟩
  · rw [hvalid]
    exact List.isEmpty_iff
  · rw [validateVibeCheckIn_errors_eq, List.mem_append, mem_rangeErrors_iff,
      mem_labelErrors_iff]
    simp
  · rw [validateVibeCheckIn_errors_eq, List.mem_append, mem_rangeErrors_iff,
      mem_labelErrors_iff]
    simp
  · intro canonical
    rw [validateVibeCheckIn_errors_eq, List.mem_append, mem_rangeErrors_iff,
      mem_labelErrors_iff]
    constructor
    · rintro (⟨_, h⟩ | ⟨_, h⟩ | ⟨entry, hby, hne, h⟩)
      · simp at h
      · simp at h
      · injection h with h1 h2 h3
        subst h2
        exact ⟨entry, hby, rfl, hne⟩
    · rintro ⟨entry, hby, hval, hne⟩
      subst hval
      right; right
      exact ⟨entry, hby, hne, rfl⟩

/-- C9: in the UI variant `validateCheckIn` (MindflowApp.jsx) the
out-of-range branch is unreachable: every result is valid, an unknown-label
error, or a homomorphism-violation error — never the "Ordinal out of range"
error — because the homomorphism check returns first whenever the value
differs from the known label's canonical value, and a matching value is
necessarily in [1,5]. -/
theorem claim_C9_ui_out_of_range_unreachable (moodValue : ℚ) (moodLabel : String) :
    UI.validateCheckIn moodValue moodLabel = ⟨true, none⟩ ∨
    UI.validateCheckIn moodValue moodLabel =
      ⟨false, some (UI.CheckInError.unknownLabel moodLabel)⟩ ∨
    ∃ canonical : ℚ, UI.validateCheckIn moodValue moodLabel =
      ⟨false, some (UI.CheckInError.homomorphismViolation moodLabel canonical moodValue)⟩ := by
  unfold UI.validateCheckIn
  cases hf : UI.VIBE_SCALE.find? (fun v => v.label == moodLabel) with
  | none => right; left; rfl
  | some canonical =>
      by_cases hv : canonical.value = moodValue
      · have hmem : canonical ∈ UI.VIBE_SCALE := List.mem_of_find?_eq_some hf
        have hrange : 1 ≤ canonical.value ∧ canonical.value ≤ 5 := by
          unfold UI.VIBE_SCALE at hmem
          fin_cases hmem <;> norm_num
        left
        simp only []
        rw [if_neg (by simp [hv]), if_neg (by push_neg; rw [← hv]; exact hrange)]
      · right; right
        refine ⟨canonical.value, ?_⟩
        simp only []
        rw [if_pos hv]

/-- C3: `validateCheckIn(6, "Great")` — the spec's check-in validator,
implemented by `validateVibeCheckIn` in App.jsx — is invalid and its error
list includes the ordinal out-of-range error for the value 6, which lies
outside [1,5]. -/
theorem claim_C3_out_of_range_reported :
    (App.validateVibeCheckIn 6 ("Great")).valid = false ∧
      App.VibeError.ordinalViolation 6 ∈ (App.validateVibeCheckIn 6 ("Great")).errors := by
  decide

/-- C4: the worked example of the scoring formula: inputs 10/20/3.8/30 with
the default ceilings 30/30/60 give a composite score of exactly 52, the
tier "High", and the (2-decimal rounded) breakdown 33.33 / 70 / 50 / 66.67,
the roundings of 100/3, 70, 50 and 200/3. -/
theorem claim_C4_worked_example :
    (App.computeHealthScore 10 20 3.8 30 App.defaultMaxValues).healthScore = 52 ∧
    (App.computeHealthScore 10 20 3.8 30 App.defaultMaxValues).engagementTier = "High" ∧
    (App.computeHealthScore 10 20 3.8 30 App.defaultMaxValues).breakdown =
      ⟨33.33, 70, 50, 66.67⟩ := by
  refine ⟨?_, ?_, ?_⟩ <;>
    norm_num [App.computeHealthScore, App.toFixed2, App.defaultMaxValues, round_eq,
      App.Breakdown.mk.injEq]

/-- C10: the registry self-check (rule (c) of `validateVibeCheckIn`, that
"Terrible" maps strictly below "Great") never fires on any input, so the
error list always has at most two elements and never contains an
empirical-order violation. -/
theorem claim_C10_order_selfcheck_never_fires (moodValue : ℚ) (moodLabel : String) :
    (App.validateVibeCheckIn moodValue moodLabel).errors.length ≤ 2 ∧
      ∀ sad happy, App.VibeError.empiricalOrderViolation sad happy ∉
        (App.validateVibeCheckIn moodValue moodLabel).errors := by
  have ho : App.orderErrors = [] := by decide
  have h1 : (App.rangeErrors moodValue).length ≤ 1 ∧
      ∀ sad happy, App.VibeError.empiricalOrderViolation sad happy ∉ App.rangeErrors moodValue := by
    unfold App.rangeErrors; split <;> simp
  have h2 : (App.labelErrors moodValue moodLabel).length ≤ 1 ∧
      ∀ sad happy, App.VibeError.empiricalOrderViolation sad happy ∉
        App.labelErrors moodValue moodLabel := by
    unfold App.labelErrors
    cases hby : App.VIBE_BY_LABEL moodLabel with
    | none => simp
    | some canonicalEntry =>
        simp only []
        split <;> simp
  constructor
  · show (App.rangeErrors moodValue ++ App.labelErrors moodValue moodLabel ++
      App.orderErrors).length ≤ 2
    rw [ho]
    simp only [List.length_append, List.length_nil]
    omega
  · intro sad happy
    show App.VibeError.empiricalOrderViolation sad happy ∉
      App.rangeErrors moodValue ++ App.labelErrors moodValue moodLabel ++ App.orderErrors
    rw [ho]
    simp only [List.append_nil, List.mem_append, not_or]
    exact ⟨h1.2 sad happy, h2.2 sad happy⟩

/-- C7: with non-negative integer counters and an average vibe score in
[1,5] (the precondition required because `normVibe` is unclamped),
`computeHealthScore` under the default ceilings returns a `healthScore` in
[0,100]. -/
theorem claim_C7_health_score_bounded (streakDays vibeCheckIns averageVibeScore loginCount : ℚ)
    (hsi : App.isInteger streakDays) (hs : 0 ≤ streakDays)
    (hvi : App.isInteger vibeCheckIns) (hv : 0 ≤ vibeCheckIns)
    (hli : App.isInteger loginCount) (hl : 0 ≤ loginCount)
    (ha1 : 1 ≤ averageVibeScore) (ha5 : averageVibeScore ≤ 5) :
    0 ≤ (App.computeHealthScore streakDays vibeCheckIns averageVibeScore loginCount
        App.defaultMaxValues).healthScore ∧
      (App.computeHealthScore streakDays vibeCheckIns averageVibeScore loginCount
        App.defaultMaxValues).healthScore ≤ 100 :=
  computeHealthScore_bounds hs hv hl ha1 ha5

/-- Witness for C7 at the spec's worked-example input 10/20/3.8/30. -/
theorem claim_C7_witness :
    0 ≤ (App.computeHealthScore 10 20 3.8 30 App.defaultMaxValues).healthScore ∧
      (App.computeHealthScore 10 20 3.8 30 App.defaultMaxValues).healthScore ≤ 100 :=
  claim_C7_health_score_bounded 10 20 3.8 30 (by decide) (by norm_num) (by decide)
    (by norm_num) (by decide) (by norm_num) (by norm_num) (by norm_num)

/-- C5: under the default ceilings, `computeHealthScore` is monotone
non-decreasing in each of its four inputs individually, the other three
held fixed. -/
theorem claim_C5_monotone :
    (∀ s s' v a l : ℚ, s ≤ s' →
      (App.computeHealthScore s v a l App.defaultMaxValues).healthScore ≤
        (App.computeHealthScore s' v a l App.defaultMaxValues).healthScore) ∧
    (∀ s v v' a l : ℚ, v ≤ v' →
      (App.computeHealthScore s v a l App.defaultMaxValues).healthScore ≤
        (App.computeHealthScore s v' a l App.defaultMaxValues).healthScore) ∧
    (∀ s v a a' l : ℚ, a ≤ a' →
      (App.computeHealthScore s v a l App.defaultMaxValues).healthScore ≤
        (App.computeHealthScore s v a' l App.defaultMaxValues).healthScore) ∧
    (∀ s v a l l' : ℚ, l ≤ l' →
      (App.computeHealthScore s v a l App.defaultMaxValues).healthScore ≤
        (App.computeHealthScore s v a l' App.defaultMaxValues).healthScore) := by
  have hmin : ∀ x y c : ℚ, 0 < c → x ≤ y → min (x / c) 1 ≤ min (y / c) 1 := by
    intro x y c hc h
    exact min_le_min ((div_le_div_iff_of_pos_right hc).mpr h) le_rfl
  refine ⟨?_, ?_, ?_, ?_⟩
  · intro s s' v a l h
    rw [computeHealthScore_healthScore_eq, computeHealthScore_healthScore_eq]
    apply toFixed2_le_toFixed2
    have h1 := hmin s s' App.defaultMaxValues.streakDays (by norm_num [App.defaultMaxValues]) h
    linarith
  · intro s v v' a l h
    rw [computeHealthScore_healthScore_eq, computeHealthScore_healthScore_eq]
    apply toFixed2_le_toFixed2
    have h1 := hmin v v' App.defaultMaxValues.vibeCheckIns (by norm_num [App.defaultMaxValues]) h
    linarith
  · intro s v a a' l h
    rw [computeHealthScore_healthScore_eq, computeHealthScore_healthScore_eq]
    apply toFixed2_le_toFixed2
    linarith
  · intro s v a l l' h
    rw [computeHealthScore_healthScore_eq, computeHealthScore_healthScore_eq]
    apply toFixed2_le_toFixed2
    have h1 := hmin l l' App.defaultMaxValues.loginCount (by norm_num [App.defaultMaxValues]) h
    linarith

/-- Witness for C5: one concrete increase per input. -/
theorem claim_C5_witness :
    ((App.computeHealthScore 1 0 1 0 App.defaultMaxValues).healthScore ≤
      (App.computeHealthScore 2 0 1 0 App.defaultMaxValues).healthScore) ∧
    ((App.computeHealthScore 1 0 1 0 App.defaultMaxValues).healthScore ≤
      (App.computeHealthScore 1 3 1 0 App.defaultMaxValues).healthScore) ∧
    ((App.computeHealthScore 1 0 1 0 App.defaultMaxValues).healthScore ≤
      (App.computeHealthScore 1 0 2 0 App.defaultMaxValues).healthScore) ∧
    ((App.computeHealthScore 1 0 1 0 App.defaultMaxValues).healthScore ≤
      (App.computeHealthScore 1 0 1 9 App.defaultMaxValues).healthScore) :=
  ⟨claim_C5_monotone.1 1 2 0 1 0 (by norm_num),
   claim_C5_monotone.2.1 1 0 3 1 0 (by norm_num),
   claim_C5_monotone.2.2.1 1 0 1 2 0 (by norm_num),
   claim_C5_monotone.2.2.2 1 0 1 0 9 (by norm_num)⟩

/-- C6: the four engagement tiers partition the integers of [0,100]
(exactly one tier contains each score, 25 falling in Low and 26 in
Moderate), and for any score outside [0,100] `tierForScore` deliberately
falls back to the lowest tier instead of failing. -/
theorem claim_C6_tier_partition_and_fallback :
    (∀ s : ℤ, 0 ≤ s → s ≤ 100 →
      ∃! t, t ∈ UI.ENGAGEMENT_TIERS ∧ t.min ≤ s ∧ s ≤ t.max) ∧
    UI.tierForScore 25 = ⟨"Low", 0, 25, "#ff6b8a"⟩ ∧
    UI.tierForScore 26 = ⟨"Moderate", 26, 50, "#ffd166"⟩ ∧
    (∀ q : ℚ, q < 0 ∨ 100 < q → UI.tierForScore q = ⟨"Low", 0, 25, "#ff6b8a"⟩) := by
  refine ⟨?_, by decide, by decide, ?_⟩
  · intro s h0 h100
    by_cases h25 : s ≤ 25
    · refine ⟨⟨"Low", 0, 25, "#ff6b8a"⟩, ⟨by decide, h0, h25⟩, ?_⟩
      rintro t ⟨ht, hmin, hmax⟩
      simp only [UI.ENGAGEMENT_TIERS, List.mem_cons, List.not_mem_nil, or_false] at ht
      rcases ht with rfl | rfl | rfl | rfl <;> simp_all <;> omega
    · by_cases h50 : s ≤ 50
      · refine ⟨⟨"Moderate", 26, 50, "#ffd166"⟩, ⟨by decide, by show (26:ℤ) ≤ s; omega, h50⟩, ?_⟩
        rintro t ⟨ht, hmin, hmax⟩
        simp only [UI.ENGAGEMENT_TIERS, List.mem_cons, List.not_mem_nil, or_false] at ht
        rcases ht with rfl | rfl | rfl | rfl <;> simp_all <;> omega
      · by_cases h75 : s ≤ 75
        · refine ⟨⟨"High", 51, 75, "#a8d8a8"⟩, ⟨by decide, by show (51:ℤ) ≤ s; omega, h75⟩, ?_⟩
          rintro t ⟨ht, hmin, hmax⟩
          simp only [UI.ENGAGEMENT_TIERS, List.mem_cons, List.not_mem_nil, or_false] at ht
          rcases ht with rfl | rfl | rfl | rfl <;> simp_all <;> omega
        · refine ⟨⟨"Excellent", 76, 100, "#5ec4b1"⟩, ⟨by decide, by show (76:ℤ) ≤ s; omega, h100⟩, ?_⟩
          rintro t ⟨ht, hmin, hmax⟩
          simp only [UI.ENGAGEMENT_TIERS, List.mem_cons, List.not_mem_nil, or_false] at ht
          rcases ht with rfl | rfl | rfl | rfl <;> simp_all <;> omega
  · intro q hq
    unfold UI.tierForScore
    rw [List.find?_eq_none.mpr ?_]
    · rfl
    · intro t ht
      simp only [UI.ENGAGEMENT_TIERS, List.mem_cons, List.not_mem_nil, or_false] at ht
      rcases ht with rfl | rfl | rfl | rfl <;>
        · intro hp
          simp only [Bool.and_eq_true, decide_eq_true_eq] at hp
          push_cast at hp
          rcases hq with h | h <;> linarith [hp.1, hp.2]

/-- C1 fails as stated: the contract-satisfying input
streakDays=19, vibeCheckIns=0, averageVibeScore=1, loginCount=0 computes
healthScore 25.33 with derived tier "Low" (the cascade tests `< 26`), but
`validateHealthScore` requires a Low score in [0,25], so the round trip
reports a TierScoreMismatch. -/
theorem claim_C1_counterexample :
    App.isInteger 19 ∧ (0 : ℚ) ≤ 19 ∧ App.isInteger 0 ∧ (0 : ℚ) ≤ 0 ∧
    (1 : ℚ) ≤ 1 ∧ (1 : ℚ) ≤ 5 ∧
    (App.validateHealthScore (App.roundTripRecord 19 0 1 0)).valid = false ∧
    (App.validateHealthScore (App.roundTripRecord 19 0 1 0)).errors =
      [App.HealthError.tierScoreMismatch ("Low") 0 25 (2533 / 100)] := by
  have hr : App.roundTripRecord 19 0 1 0 = ⟨19, 0, 1, 0, 2533 / 100, "Low"⟩ := by
    unfold App.roundTripRecord
    norm_num [App.computeHealthScore, App.toFixed2, App.defaultMaxValues, round_eq,
      App.HealthScoreRecord.mk.injEq]
  refine ⟨by decide, by norm_num, by decide, by norm_num, by norm_num, by norm_num, ?_, ?_⟩
  · rw [hr]
    norm_num [App.validateHealthScore, App.tierBounds, App.isInteger]
  · rw [hr]
    norm_num [App.validateHealthScore, App.tierBounds, App.isInteger]

theorem validateHealthScore_ok (r : App.HealthScoreRecord)
    (h1 : ¬ (r.healthScore < 0 ∨ r.healthScore > 100))
    (lo hi : ℚ) (hb : App.tierBounds r.engagementTier = some (lo, hi))
    (h2 : ¬ (r.healthScore < lo ∨ r.healthScore > hi))
    (h3 : ¬ (¬ App.isInteger r.streakDays ∨ r.streakDays < 0))
    (h4 : ¬ (¬ App.isInteger r.vibeCheckIns ∨ r.vibeCheckIns < 0))
    (h5 : ¬ (¬ App.isInteger r.loginCount ∨ r.loginCount < 0))
    (h6 : ¬ (r.averageVibeScore < 1 ∨ r.averageVibeScore > 5)) :
    App.validateHealthScore r = ⟨true, []⟩ := by
  unfold App.validateHealthScore
  rw [hb]
  simp only [if_neg h1, if_neg h2, if_neg h3, if_neg h4, if_neg h5, if_neg h6]
  rfl

/-- C1 (amended): for every contract-satisfying input whose computed
healthScore does not fall strictly inside one of the rounding gaps
(25,26), (50,51), (75,76) between the tier-derivation cascade and the
validator's integer tier ranges, the assembled `HealthScoreRecord` passes
`validateHealthScore` with an empty error list. -/
theorem claim_C1_roundtrip_amended
    (streakDays vibeCheckIns averageVibeScore loginCount : ℚ)
    (hsi : App.isInteger streakDays) (hs : 0 ≤ streakDays)
    (hvi : App.isInteger vibeCheckIns) (hv : 0 ≤ vibeCheckIns)
    (hli : App.isInteger loginCount) (hl : 0 ≤ loginCount)
    (ha1 : 1 ≤ averageVibeScore) (ha5 : averageVibeScore ≤ 5)
    (hg1 : ¬ (25 < (App.computeHealthScore streakDays vibeCheckIns averageVibeScore loginCount
        App.defaultMaxValues).healthScore ∧
      (App.computeHealthScore streakDays vibeCheckIns averageVibeScore loginCount
        App.defaultMaxValues).healthScore < 26))
    (hg2 : ¬ (50 < (App.computeHealthScore streakDays vibeCheckIns averageVibeScore loginCount
        App.defaultMaxValues).healthScore ∧
      (App.computeHealthScore streakDays vibeCheckIns averageVibeScore loginCount
        App.defaultMaxValues).healthScore < 51))
    (hg3 : ¬ (75 < (App.computeHealthScore streakDays vibeCheckIns averageVibeScore loginCount
        App.defaultMaxValues).healthScore ∧
      (App.computeHealthScore streakDays vibeCheckIns averageVibeScore loginCount
        App.defaultMaxValues).healthScore < 76)) :
    (App.validateHealthScore
      (App.roundTripRecord streakDays vibeCheckIns averageVibeScore loginCount)).valid = true ∧
    (App.validateHealthScore
      (App.roundTripRecord streakDays vibeCheckIns averageVibeScore loginCount)).errors = [] := by
  obtain ⟨hb0, hb100⟩ := computeHealthScore_bounds hs hv hl ha1 ha5
  set H := (App.computeHealthScore streakDays vibeCheckIns averageVibeScore loginCount
    App.defaultMaxValues).healthScore with hH
  have hT := computeHealthScore_engagementTier_eq streakDays vibeCheckIns averageVibeScore
    loginCount App.defaultMaxValues
  rw [← hH] at hT
  have hproj : (App.roundTripRecord streakDays vibeCheckIns averageVibeScore
      loginCount).engagementTier = (App.computeHealthScore streakDays vibeCheckIns
      averageVibeScore loginCount App.defaultMaxValues).engagementTier := rfl
  have key : App.validateHealthScore
      (App.roundTripRecord streakDays vibeCheckIns averageVibeScore loginCount) = ⟨true, []⟩ := by
    rcases le_or_lt 76 H with h76 | h76
    · have htier : (App.computeHealthScore streakDays vibeCheckIns averageVibeScore loginCount
          App.defaultMaxValues).engagementTier = "Excellent" := by
        rw [hT, if_pos (ge_iff_le.mpr h76)]
      refine validateHealthScore_ok _ ?_ 76 100 ?_ ?_ ?_ ?_ ?_ ?_
      · push_neg; exact ⟨hb0, hb100⟩
      · rw [hproj, htier]; decide
      · push_neg; exact ⟨h76, hb100⟩
      · push_neg; exact ⟨hsi, hs⟩
      · push_neg; exact ⟨hvi, hv⟩
      · push_neg; exact ⟨hli, hl⟩
      · push_neg; exact ⟨ha1, ha5⟩
    · rcases le_or_lt 51 H with h51 | h51
      · have h75 : H ≤ 75 := by
          by_contra hc; push_neg at hc; exact hg3 ⟨hc, h76⟩
        have htier : (App.computeHealthScore streakDays vibeCheckIns averageVibeScore loginCount
            App.defaultMaxValues).engagementTier = "High" := by
          rw [hT, if_neg (by simpa using not_le.mpr h76), if_pos (ge_iff_le.mpr h51)]
        refine validateHealthScore_ok _ ?_ 51 75 ?_ ?_ ?_ ?_ ?_ ?_
        · push_neg; exact ⟨hb0, hb100⟩
        · rw [hproj, htier]; decide
        · push_neg; exact ⟨h51, h75⟩
        · push_neg; exact ⟨hsi, hs⟩
        · push_neg; exact ⟨hvi, hv⟩
        · push_neg; exact ⟨hli, hl⟩
        · push_neg; exact ⟨ha1, ha5⟩
      · rcases le_or_lt 26 H with h26 | h26
        · have h50 : H ≤ 50 := by
            by_contra hc; push_neg at hc; exact hg2 ⟨hc, h51⟩
          have htier : (App.computeHealthScore streakDays vibeCheckIns averageVibeScore
              loginCount App.defaultMaxValues).engagementTier = "Moderate" := by
            rw [hT, if_neg (by simpa using not_le.mpr h76),
              if_neg (by simpa using not_le.mpr h51), if_pos (ge_iff_le.mpr h26)]
          refine validateHealthScore_ok _ ?_ 26 50 ?_ ?_ ?_ ?_ ?_ ?_
          · push_neg; exact ⟨hb0, hb100⟩
          · rw [hproj, htier]; decide
          · push_neg; exact ⟨h26, h50⟩
          · push_neg; exact ⟨hsi, hs⟩
          · push_neg; exact ⟨hvi, hv⟩
          · push_neg; exact ⟨hli, hl⟩
          · push_neg; exact ⟨ha1, ha5⟩
        · have h25 : H ≤ 25 := by
            by_contra hc; push_neg at hc; exact hg1 ⟨hc, h26⟩
          have htier : (App.computeHealthScore streakDays vibeCheckIns averageVibeScore
              loginCount App.defaultMaxValues).engagementTier = "Low" := by
            rw [hT, if_neg (by simpa using not_le.mpr h76),
              if_neg (by simpa using not_le.mpr h51), if_neg (by simpa using not_le.mpr h26)]
          refine validateHealthScore_ok _ ?_ 0 25 ?_ ?_ ?_ ?_ ?_ ?_
          · push_neg; exact ⟨hb0, hb100⟩
          · rw [hproj, htier]; decide
          · push_neg; exact ⟨hb0, h25⟩
          · push_neg; exact ⟨hsi, hs⟩
          · push_neg; exact ⟨hvi, hv⟩
          · push_neg; exact ⟨hli, hl⟩
          · push_neg; exact ⟨ha1, ha5⟩
  rw [key]
  exact ⟨rfl, rfl⟩

/-- Witness for C1 (amended) at the worked-example input 10/20/3.8/30,
whose score 52 avoids the three gaps. -/
theorem claim_C1_witness :
    (App.validateHealthScore (App.roundTripRecord 10 20 3.8 30)).valid = true ∧
    (App.validateHealthScore (App.roundTripRecord 10 20 3.8 30)).errors = [] :=
  claim_C1_roundtrip_amended 10 20 3.8 30 (by decide) (by norm_num) (by decide) (by norm_num)
    (by decide) (by norm_num) (by norm_num) (by norm_num)
    (by norm_num [App.computeHealthScore, App.toFixed2, App.defaultMaxValues, round_eq])
    (by norm_num [App.computeHealthScore, App.toFixed2, App.defaultMaxValues, round_eq])
    (by norm_num [App.computeHealthScore, App.toFixed2, App.defaultMaxValues, round_eq])

/-- Witness for C6: the partition at score 40 and the fallback at 101. -/
theorem claim_C6_witness :
    (∃! t, t ∈ UI.ENGAGEMENT_TIERS ∧ t.min ≤ (40 : ℤ) ∧ (40 : ℤ) ≤ t.max) ∧
      UI.tierForScore 101 = ⟨"Low", 0, 25, "#ff6b8a"⟩ :=
  ⟨claim_C6_tier_partition_and_fallback.1 40 (by norm_num) (by norm_num),
   claim_C6_tier_partition_and_fallback.2.2.2 101 (by norm_num)⟩

theorem chain_le_get_mono (ts : List ℤ) (h : ts.Chain' (· ≤ ·)) (j i : ℕ)
    (hj : j < ts.length) (hi : i < ts.length) (hji : j ≤ i) :
    ts.get ⟨j, hj⟩ ≤ ts.get ⟨i, hi⟩ := by
  rcases eq_or_lt_of_le hji with rfl | hlt
  · exact le_rfl
  · have hp := List.chain'_iff_pairwise.mp h
    exact List.pairwise_iff_get.mp hp ⟨j, hj⟩ ⟨i, hi⟩ (Fin.mk_lt_mk.mpr hlt)

theorem chain_le_adj_of_dup (ts : List ℤ) (h : ts.Chain' (· ≤ ·)) {j i : ℕ}
    (hj : j < ts.length) (hi : i < ts.length) (hji : j < i)
    (heq : ts.get ⟨j, hj⟩ = ts.get ⟨i, hi⟩) :
    1 ≤ i ∧ ts.get ⟨i - 1, by omega⟩ = ts.get ⟨i, hi⟩ := by
  have h1 : 1 ≤ i := by omega
  have hm1 : i - 1 < ts.length := by omega
  have ha : ts.get ⟨j, hj⟩ ≤ ts.get ⟨i - 1, hm1⟩ :=
    chain_le_get_mono ts h j (i - 1) hj hm1 (by omega)
  have hb : ts.get ⟨i - 1, hm1⟩ ≤ ts.get ⟨i, hi⟩ :=
    chain_le_get_mono ts h (i - 1) i hm1 hi (by omega)
  exact ⟨h1, le_antisymm hb (heq ▸ ha)⟩

theorem chain_le_nodup_iff_no_adj (ts : List ℤ) (h : ts.Chain' (· ≤ ·)) :
    ts.Nodup ↔ ∀ i (hi : i < ts.length), 1 ≤ i →
      ts.get ⟨i - 1, by omega⟩ ≠ ts.get ⟨i, hi⟩ := by
  constructor
  · intro hnd i hi h1 hcontra
    have hinj := List.nodup_iff_injective_get.mp hnd
    have hfin := hinj hcontra
    have : i - 1 = i := congrArg Fin.val hfin
    omega
  · intro hadj
    rw [List.nodup_iff_injective_get]
    intro a b hab
    by_contra hne
    rcases lt_trichotomy a.val b.val with hlt | heqv | hlt
    · obtain ⟨h1, hadjeq⟩ := chain_le_adj_of_dup ts h a.isLt b.isLt hlt hab
      exact hadj b.val b.isLt h1 hadjeq
    · exact hne (Fin.ext heqv)
    · obtain ⟨h1, hadjeq⟩ := chain_le_adj_of_dup ts h b.isLt a.isLt hlt hab.symm
      exact hadj a.val a.isLt h1 hadjeq

theorem timestampErrors_indexes_eq (ts : List ℤ) :
    (App.validateVibeTimestamps ts).errors.map App.TimestampError.index =
      (List.range ts.length).filter
        (fun i => decide (1 ≤ i) && (ts.getD i 0 == ts.getD (i - 1) 0)) := by
  show (((List.range ts.length).filter _).map _).map _ = _
  rw [List.map_map,
    show (App.TimestampError.index ∘
      fun i => App.TimestampError.duplicateTimestamp i (ts.getD i 0)) = id from rfl,
    List.map_id]

theorem mem_timestampErrors_iff (ts : List ℤ) (i : ℕ) :
    i ∈ (App.validateVibeTimestamps ts).errors.map App.TimestampError.index ↔
      i < ts.length ∧ 1 ≤ i ∧ ts.getD i 0 = ts.getD (i - 1) 0 := by
  rw [timestampErrors_indexes_eq]
  simp only [List.mem_filter, List.mem_range, Bool.and_eq_true, decide_eq_true_eq,
    beq_iff_eq]

theorem getD_eq_iff_get_eq (ts : List ℤ) {i : ℕ} (hi : i < ts.length) (h1 : 1 ≤ i) :
    (ts.getD i 0 = ts.getD (i - 1) 0) ↔ ts.get ⟨i - 1, by omega⟩ = ts.get ⟨i, hi⟩ := by
  have hm1 : i - 1 < ts.length := by omega
  rw [List.getD_eq_getElem ts 0 hi, List.getD_eq_getElem ts 0 hm1,
    List.get_eq_getElem, List.get_eq_getElem]
  exact eq_comm

/-- C8: for a sequence of check-ins sorted in non-decreasing `recordedAt`
order, `validateVibeTimestamps` is valid exactly when no two elements share
a timestamp; each element that duplicates an earlier one contributes
exactly one DuplicateTimestamp error (the error indices are pairwise
distinct), carrying the index of the offending element. -/
theorem claim_C8_duplicate_timestamps (ts : List ℤ) (h : ts.Chain' (· ≤ ·)) :
    ((App.validateVibeTimestamps ts).valid = true ↔ ts.Nodup) ∧
    ((App.validateVibeTimestamps ts).errors.map App.TimestampError.index).Nodup ∧
    (∀ i : ℕ, i ∈ (App.validateVibeTimestamps ts).errors.map App.TimestampError.index ↔
      ∃ hi : i < ts.length, 1 ≤ i ∧ ∃ j, ∃ hj : j < ts.length, j < i ∧
        ts.get ⟨j, hj⟩ = ts.get ⟨i, hi⟩) := by
  refine ⟨?_, ?_, ?_⟩
  · have hvalid : (App.validateVibeTimestamps ts).valid =
        (App.validateVibeTimestamps ts).errors.isEmpty := rfl
    rw [hvalid, List.isEmpty_iff, chain_le_nodup_iff_no_adj ts h]
    constructor
    · intro hnil i hi h1 hcontra
      have hm : i ∈ (App.validateVibeTimestamps ts).errors.map App.TimestampError.index := by
        rw [mem_timestampErrors_iff]
        exact ⟨hi, h1, (getD_eq_iff_get_eq ts hi h1).mpr hcontra⟩
      rw [hnil] at hm
      simp at hm
    · intro hadj
      have : (App.validateVibeTimestamps ts).errors.map App.TimestampError.index = [] := by
        rw [List.eq_nil_iff_forall_not_mem]
        intro i
        rw [mem_timestampErrors_iff]
        rintro ⟨hi, h1, heqD⟩
        exact hadj i hi h1 ((getD_eq_iff_get_eq ts hi h1).mp heqD)
      exact List.map_eq_nil_iff.mp this
  · rw [timestampErrors_indexes_eq]
    exact List.Nodup.filter _ (List.nodup_range _)
  · intro i
    rw [mem_timestampErrors_iff]
    constructor
    · rintro ⟨hi, h1, heqD⟩
      have hget := (getD_eq_iff_get_eq ts hi h1).mp heqD
      exact ⟨hi, h1, i - 1, by omega, by omega, hget⟩
    · rintro ⟨hi, h1, j, hj, hji, heq⟩
      obtain ⟨h1i, hadjeq⟩ := chain_le_adj_of_dup ts h hj hi hji heq
      exact ⟨hi, h1i, (getD_eq_iff_get_eq ts hi h1i).mpr hadjeq⟩

/-- Witness for C8 at the sorted list [1, 1, 2]: invalid, with the single
duplicate at index 1 reported once. -/
theorem claim_C8_witness :
    (((App.validateVibeTimestamps [1, 1, 2]).valid = true ↔ ([1, 1, 2] : List ℤ).Nodup) ∧
    ((App.validateVibeTimestamps [1, 1, 2]).errors.map App.TimestampError.index).Nodup ∧
    (∀ i : ℕ,
      i ∈ (App.validateVibeTimestamps [1, 1, 2]).errors.map App.TimestampError.index ↔
      ∃ hi : i < ([1, 1, 2] : List ℤ).length, 1 ≤ i ∧
        ∃ j, ∃ hj : j < ([1, 1, 2] : List ℤ).length, j < i ∧
          ([1, 1, 2] : List ℤ).get ⟨j, hj⟩ = ([1, 1, 2] : List ℤ).get ⟨i, hi⟩)) :=
  claim_C8_duplicate_timestamps [1, 1, 2] (List.chain'_iff_pairwise.mpr (by decide))
